import Mathlib

/-!
Shallow embedding of the playtomic-agent slot-discovery core
(src/playtomic_agent/models.py, client/api.py, client/utils.py,
client/exceptions.py, config.py, tools.py) and proofs of the spec claims.

Python dicts with optional keys become structures with `Option` fields;
Python exceptions become an `Except PyError` result; network traffic is
modelled by passing the remote responses in and logging the outbound
requests that the code would issue.
-/

namespace Playtomic

/-- Court type, the pydantic `Literal["single", "double"]` (models.py, Court.type).
The `normalize_type` validator lowercases the raw API value before this
restriction applies; mapping of raw strings is done at parse time. -/
inductive CourtType where
  | single
  | double
deriving DecidableEq, Repr

/-- The court-type filter argument of `filter_slots` / `find_slots`
(`Literal["SINGLE", "DOUBLE"]`). -/
inductive FilterCourtType where
  | SINGLE
  | DOUBLE
deriving DecidableEq, Repr

/-- models.py Court. -/
structure Court where
  id : String
  name : String
  type : CourtType
deriving DecidableEq, Repr

/-- models.py Club. -/
structure Club where
  slug : String
  name : String
  club_id : String
  timezone : String
  courts : List Court
deriving DecidableEq, Repr

/-- models.py Club.get_court_by_id: first court whose id matches, else None. -/
def Club.get_court_by_id (club : Club) (court_id : String) : Option Court :=
  club.courts.find? (fun c => c.id == court_id)

/-- models.py Club.get_court_by_type: all courts of the given type, in order. -/
def Club.get_court_by_type (club : Club) (court_type : CourtType) : List Court :=
  club.courts.filter (fun c => c.type == court_type)

/-- A calendar datetime with second precision, the value of a parsed
`datetime` in the Python code (always tagged UTC there). -/
structure DateTime where
  year : Nat
  month : Nat
  day : Nat
  hour : Nat
  minute : Nat
  second : Nat
deriving DecidableEq, Repr

/-- models.py Slot. -/
structure Slot where
  club_id : String
  court_id : String
  court_name : String
  time : DateTime
  duration : Int
  price : String
deriving DecidableEq, Repr

/-! ### String scanning and formatting

Python's `strptime`/`strftime` are embedded at the character level.
`%H`/`%M`/`%S`/`%m`/`%d` match one or two digits, `%Y` four, with the
`datetime` constructor's range checks; `%H`/`%M`-style output fields are
always two zero-padded digits. -/

/-- The character class matched by a strptime digit (`\d`). -/
def isDigitChar (c : Char) : Bool := 48 ≤ c.toNat && c.toNat ≤ 57

/-- Value of a digit string, as `int` would read it. -/
def digitsToNat (l : List Char) : Nat :=
  l.foldl (fun a c => 10 * a + (c.toNat - 48)) 0

/-- strftime zero-padded two-digit field (hour, minute, second, month, day
values are always below 100). -/
def natToTwoDigits (n : Nat) : List Char :=
  [Char.ofNat (48 + n / 10 % 10), Char.ofNat (48 + n % 10)]

/-- strftime four-digit year field. -/
def natToFourDigits (n : Nat) : List Char :=
  [Char.ofNat (48 + n / 1000 % 10), Char.ofNat (48 + n / 100 % 10),
   Char.ofNat (48 + n / 10 % 10), Char.ofNat (48 + n % 10)]

/-- Split a character list at every occurrence of `sep` (the separator
structure strptime's literal `-`/`:` separators impose on the input). -/
def splitChar (sep : Char) : List Char → List (List Char)
  | [] => [[]]
  | c :: cs =>
    if c = sep then [] :: splitChar sep cs
    else
      match splitChar sep cs with
      | r :: rs => (c :: r) :: rs
      | [] => [[c]]

/-- A numeric strptime field: between `lo` and `hi` digits, else the parse
fails (ValueError). -/
def parseNatField (l : List Char) (lo hi : Nat) : Option Nat :=
  if lo ≤ l.length ∧ l.length ≤ hi ∧ l.all isDigitChar then some (digitsToNat l) else none

/-- Gregorian leap-year rule used by `datetime`. -/
def isLeapYear (y : Nat) : Bool :=
  y % 4 == 0 && (y % 100 != 0 || y % 400 == 0)

/-- Days in a month, as `datetime` validates the day field. -/
def daysInMonth (y m : Nat) : Nat :=
  if m = 2 then (if isLeapYear y then 29 else 28)
  else if m = 4 ∨ m = 6 ∨ m = 9 ∨ m = 11 then 30
  else 31

/-- `datetime.strptime(s, "%Y-%m-%d")`: year-month-day with the
constructor's range checks (year 1..9999, month 1..12, day within the
month). -/
def parseDate (s : String) : Option (Nat × Nat × Nat) :=
  match splitChar '-' s.data with
  | [ys, ms, ds] =>
    match parseNatField ys 4 4, parseNatField ms 1 2, parseNatField ds 1 2 with
    | some y, some m, some d =>
      if 1 ≤ y ∧ 1 ≤ m ∧ m ≤ 12 ∧ 1 ≤ d ∧ d ≤ daysInMonth y m then some (y, m, d) else none
    | _, _, _ => none
  | _ => none

/-- The `%H:%M:%S` part of `strptime(..., "%Y-%m-%dT%H:%M:%S")`. -/
def parseTimeHMS (s : String) : Option (Nat × Nat × Nat) :=
  match splitChar ':' s.data with
  | [hs, ms, ss] =>
    match parseNatField hs 1 2, parseNatField ms 1 2, parseNatField ss 1 2 with
    | some h, some m, some sec =>
      if h ≤ 23 ∧ m ≤ 59 ∧ sec ≤ 59 then some (h, m, sec) else none
    | _, _, _ => none
  | _ => none

/-- The `%H:%M` part of `strptime(..., "%Y-%m-%dT%H:%M")`. -/
def parseHM (s : String) : Option (Nat × Nat) :=
  match splitChar ':' s.data with
  | [hs, ms] =>
    match parseNatField hs 1 2, parseNatField ms 1 2 with
    | some h, some m => if h ≤ 23 ∧ m ≤ 59 then some (h, m) else none
    | _, _ => none
  | _ => none

/-- client/api.py get_available_slots:
`datetime.strptime(f"\x7bdate\x7dT\x7bstart_time\x7d", "%Y-%m-%dT%H:%M:%S")`
tagged UTC.  The format string forces `date` to be `%Y-%m-%d` and the slot
field to be `%H:%M:%S`; a failure of either part is the same ValueError. -/
def parseDateTimeSec (date st : String) : Option DateTime :=
  match parseDate date, parseTimeHMS st with
  | some (y, m, d), some (hh, mm, ss) => some ⟨y, m, d, hh, mm, ss⟩
  | _, _ => none

/-- `strftime("%H:%M")` of a UTC-tagged datetime whose time of day is `t`
minutes (0 ≤ t < 1440). -/
def formatHHMM (t : Nat) : String :=
  ⟨natToTwoDigits (t / 60) ++ ':' :: natToTwoDigits (t % 60)⟩

/-- Minute of day of a datetime, the part `strftime("%H:%M")` renders. -/
def DateTime.minutesOfDay (dt : DateTime) : Nat := dt.hour * 60 + dt.minute

/-- `strftime("%Y-%m-%dT%H:%M:%S.000Z")`, the timestamp format fed to
create_booking_link (models.py Slot.get_link, tools.py find_slots). -/
def DateTime.isoMillisZ (dt : DateTime) : String :=
  ⟨natToFourDigits dt.year ++ '-' :: natToTwoDigits dt.month ++
    '-' :: natToTwoDigits dt.day ++ 'T' :: natToTwoDigits dt.hour ++
    ':' :: natToTwoDigits dt.minute ++ ':' :: natToTwoDigits dt.second ++
    ".000Z".data⟩

/-! ### Timezones

`zoneinfo.ZoneInfo` is modelled as a table from zone names to a fixed
UTC offset in minutes (`none` for an unknown zone, where `ZoneInfo`
raises).  A real zone's offset varies over time; every claim below either
does not depend on the offset or is restricted to instants at which the
zone has no transition, where the zone behaves as this fixed offset. -/
def TZDB : Type := String → Option Int

/-- `local_dt.astimezone(ZoneInfo("UTC")).strftime("%H:%M")` for a wall
clock of `localMin` minutes in a zone `off` minutes ahead of UTC: the date
may shift, `%H:%M` keeps only the minute of day. -/
def localMinutesToUtc (localMin : Nat) (off : Int) : Nat :=
  (((localMin : Int) - off).emod 1440).toNat

/-- `utc_dt.astimezone(tz).strftime("%H:%M")` for a zone `off` minutes
ahead of UTC (tools.py find_slots, api.py _print_results). -/
def utcMinutesToLocalHHMM (utcMin : Nat) (off : Int) : String :=
  formatHHMM ((((utcMin : Int) + off).emod 1440).toNat)

/-- client/utils.py create_booking_link's `time.replace(':', '%3A')`:
Python str.replace substitutes every occurrence of the single-character
pattern. -/
def pyReplaceColon (s : String) : String :=
  ⟨(s.data.map (fun c => if c = ':' then "%3A".data else [c])).flatten⟩

/-- client/utils.py create_booking_link: the f-string building the URL. -/
def create_booking_link (club_id : String) (court_id : String) (time : String)
    (duration : Int) : String :=
  "https://app.playtomic.com/payments?type=CUSTOMER_MATCH&tenant_id=" ++ club_id ++
    "&resource_id=" ++ court_id ++ "&start=" ++ pyReplaceColon time ++
    "&duration=" ++ toString duration

/-- client/api.py filter_slots: the duration test of the loop body
(`duration is not None and slot.duration != duration` skips the slot). -/
def durationOk (duration : Option Int) (s : Slot) : Bool :=
  match duration with
  | none => true
  | some d => s.duration == d

/-- client/api.py filter_slots: the target court-id set computed from the
club for the requested court type (the union of all court ids when the
filter is omitted). -/
def targetCourtIds (club : Club) (court_type : Option FilterCourtType) : List String :=
  match court_type with
  | some .SINGLE => (club.get_court_by_type .single).map (fun c => c.id)
  | some .DOUBLE => (club.get_court_by_type .double).map (fun c => c.id)
  | none => club.courts.map (fun c => c.id)

/-- client/api.py PlaytomicClient.filter_slots: the loop appends exactly the
slots whose court_id is in the target set and which pass the duration test,
in input order. -/
def filter_slots (club : Club) (available_slots : List Slot)
    (court_type : Option FilterCourtType) (duration : Option Int) : List Slot :=
  available_slots.filter
    (fun s => s.court_id ∈ targetCourtIds club court_type && durationOk duration s)

/-! ### Error taxonomy (client/exceptions.py, plus the uncaught Python
exception classes the client code can let escape) -/

/-- The exceptions the embedded operations can raise.  The first four are
the taxonomy of client/exceptions.py (with the structured details each
constructor stores); the last three are raw Python exceptions that escape
the client code uncaught (pydantic's ValidationError from model
construction, ValueError from `strptime`, ZoneInfoNotFoundError /
AssertionError in find_slots). -/
inductive PyError where
  | validationError (message : String) (field : Option String)
  | clubNotFound (identifier : String) (searchType : String)
  | multipleClubsFound (identifier : String) (count : Nat)
  | apiError (message : String) (status_code : Option Nat)
  | pydanticValidationError
  | valueError
  | zoneInfoNotFound
  | assertionError
deriving DecidableEq, Repr

/-- Decidable equality for `Except` results, so that concrete runs of the
embedded operations can be checked by evaluation. -/
instance instDecidableEqExcept {ε α : Type} [DecidableEq ε] [DecidableEq α] :
    DecidableEq (Except ε α)
  | .ok a, .ok b =>
    if h : a = b then isTrue (by rw [h]) else isFalse (by intro hh; cases hh; exact h rfl)
  | .error a, .error b =>
    if h : a = b then isTrue (by rw [h]) else isFalse (by intro hh; cases hh; exact h rfl)
  | .ok _, .error _ => isFalse (by intro hh; cases hh)
  | .error _, .ok _ => isFalse (by intro hh; cases hh)

/-! ### Remote responses and outbound requests

Network traffic is modelled by passing the decoded remote responses in
(`Network`) and logging the requests the code issues (`Request`).  A
transport failure or undecodable body is `Except.error` with the optional
HTTP status the code attaches to its APIError. -/

/-- One `resources[]` entry of a tenant record (`resource_id`, `name`,
`properties.resource_size`). -/
structure ResourceRecord where
  resource_id : Option String
  name : Option String
  resource_size : Option String
deriving DecidableEq, Repr

/-- One record of the `GET /tenants` response (the dict fields get_club
reads; a missing key is `none`).  `resources` is read with
`.get("resources", [])`. -/
structure ClubRecord where
  tenant_uid : Option String
  tenant_name : Option String
  tenant_id : Option String
  address_timezone : Option String
  resources : List ResourceRecord
deriving DecidableEq, Repr

/-- One slot dict of an availability block (`start_time`, `duration`,
`price`; a missing key is `none`). -/
structure SlotRecord where
  start_time : Option String
  duration : Option Int
  price : Option String
deriving DecidableEq, Repr

/-- One per-court block of the `GET /availability` response
(`.get("resource_id")` defaults to None, `.get("slots", [])` to `[]`). -/
structure ResourceAvailability where
  resource_id : Option String
  slots : List SlotRecord
deriving DecidableEq, Repr

/-- The remote responses for the (at most) one tenants query and one
availability query a find_slots run issues. -/
structure Network where
  tenants : Except (Option Nat) (List ClubRecord)
  availability : Except (Option Nat) (List ResourceAvailability)

/-- An outbound HTTP request with its query parameters. -/
inductive Request where
  | tenants (params : List (String × String))
  | availability (params : List (String × String))
deriving DecidableEq, Repr

/-- Python truthiness of an optional string argument: None and `""` are
falsy (the client code tests these arguments with `if x:` / `not x`). -/
def truthy : Option String → Bool
  | none => false
  | some s => !(s == "")

/-! ### Venue resolution (client/api.py get_club) -/

/-- ASCII lowercasing of one character (`str.lower` on the ASCII court
sizes the API returns). -/
def asciiLower (c : Char) : Char :=
  if 65 ≤ c.toNat ∧ c.toNat ≤ 90 then Char.ofNat (c.toNat + 32) else c

/-- Python `str.lower()` on an ASCII string. -/
def pyLower (s : String) : String := ⟨s.data.map asciiLower⟩

/-- models.py Court.normalize_type plus the `Literal["single", "double"]`
restriction: the raw `resource_size` is lowercased; any other value makes
pydantic raise (a ValidationError that `except (KeyError, TypeError)` does
not catch). -/
def parseCourtType (s : String) : Option CourtType :=
  match pyLower s with
  | "single" => some .single
  | "double" => some .double
  | _ => none

/-- The court-construction loop of get_club: each resource needs
`resource_id`, `name` and `properties.resource_size` (KeyError becomes the
parse-class APIError) and a single/double size (else pydantic raises). -/
def parseResources : List ResourceRecord → Except PyError (List Court)
  | [] => .ok []
  | r :: rs =>
    match r.resource_id, r.name, r.resource_size with
    | some rid, some nm, some sz =>
      match parseCourtType sz with
      | some t => (parseResources rs).map (fun cs => Court.mk rid nm t :: cs)
      | none => .error .pydanticValidationError
    | _, _, _ => .error (.apiError "Failed to parse club data" none)

/-- Python `slug or club_data.get("tenant_uid", "")`. -/
def pyOrStr (a : Option String) (b : String) : String :=
  match a with
  | some s => if s ≠ "" then s else b
  | none => b

/-- The parse block of get_club on the single returned record: required
fields `tenant_name`, `tenant_id`, `address.timezone` (KeyError becomes
the parse-class APIError), then the court loop. -/
def parseClubRecord (slug : Option String) (cr : ClubRecord) : Except PyError Club :=
  match cr.tenant_name, cr.tenant_id, cr.address_timezone with
  | some nm, some cid, some tz =>
    (parseResources cr.resources).map (fun courts =>
      { slug := pyOrStr slug (cr.tenant_uid.getD "")
        name := nm
        club_id := cid
        timezone := tz
        courts := courts })
  | _, _, _ => .error (.apiError "Failed to parse club data" none)

/-- The query parameters get_club sends (`tenant_uid` when slug is truthy,
else `tenant_name`). -/
def tenantsParams (slug name : Option String) : List (String × String) :=
  if truthy slug then [("tenant_uid", slug.getD "")]
  else if truthy name then [("tenant_name", name.getD "")]
  else []

/-- client/api.py PlaytomicClient.get_club, returning the requests issued
and the result.  Validation (neither selector truthy) fails before the
request; zero records raise ClubNotFoundError, two or more raise
MultipleClubsFoundError, exactly one is parsed. -/
def get_club (net : Network) (slug name : Option String) :
    List Request × Except PyError Club :=
  if !(truthy slug || truthy name) then
    ([], .error (.validationError "Either slug or name must be provided" none))
  else
    let identifier := if truthy slug then slug.getD "" else name.getD ""
    let searchType := if truthy slug then "slug" else "name"
    let req := Request.tenants (tenantsParams slug name)
    match net.tenants with
    | .error status =>
      ([req], .error (.apiError ("Failed to fetch club with " ++ searchType ++ ": " ++ identifier) status))
    | .ok data =>
      match data with
      | [] => ([req], .error (.clubNotFound identifier searchType))
      | [record] => ([req], parseClubRecord slug record)
      | _ :: _ :: _ => ([req], .error (.multipleClubsFound identifier data.length))

/-! ### Availability fetching (client/api.py get_available_slots) -/

/-- The body of the inner slot loop: `slot_data['start_time']` (KeyError)
is read and parsed (ValueError) first; building the Slot then reads
`duration` and `price` (KeyError) and validates `court_id` (a None
resource_id makes pydantic raise a ValidationError, which is a ValueError
subclass and caught too).  Any of these failures skips the record with a
warning, so the loop keeps exactly the records for which this returns
`some`. -/
def parseSlotRecord (club_id : String) (resource_id : Option String)
    (court_name : String) (date : String) (sr : SlotRecord) : Option Slot :=
  match sr.start_time with
  | none => none
  | some st =>
    match parseDateTimeSec date st with
    | none => none
    | some t =>
      match resource_id, sr.duration, sr.price with
      | some rid, some dur, some pr =>
        some { club_id := club_id, court_id := rid, court_name := court_name,
               time := t, duration := dur, price := pr }
      | _, _, _ => none

/-- The response-processing loop of get_available_slots: for each block,
look the court up by id to denormalize the display name ("Unknown Court"
when absent), then keep the parseable slot records in order. -/
def parseAvailability (club : Club) (date : String)
    (data : List ResourceAvailability) : List Slot :=
  data.flatMap (fun ra =>
    let court := match ra.resource_id with
      | some rid => club.get_court_by_id rid
      | none => none
    let court_name := match court with
      | some c => c.name
      | none => "Unknown Court"
    ra.slots.filterMap (parseSlotRecord club.club_id ra.resource_id court_name date))

/-- The query parameters get_available_slots sends; absent bounds default
to the full day `00:00:00`–`23:59:59` (Python truthiness on the bound
strings). -/
def availabilityParams (club : Club) (date : String)
    (start_time end_time : Option String) : List (String × String) :=
  [("tenant_id", club.club_id), ("date", date), ("sport_id", "PADEL"),
   ("start_min", date ++ "T" ++ (if truthy start_time then start_time.getD "" else "00:00") ++ ":00"),
   ("start_max", date ++ "T" ++ (if truthy end_time then end_time.getD "" else "23:59") ++ ":59")]

/-- client/api.py PlaytomicClient.get_available_slots: issues the
availability request and processes the response; a transport failure is
the only error, bad slot records are skipped. -/
def get_available_slots (net : Network) (club : Club) (date : String)
    (start_time end_time : Option String) :
    List Request × Except PyError (List Slot) :=
  let req := Request.availability (availabilityParams club date start_time end_time)
  match net.availability with
  | .error status =>
    ([req], .error (.apiError ("Failed to fetch availability for " ++ club.name) status))
  | .ok data => ([req], .ok (parseAvailability club date data))

/-! ### Orchestration (client/api.py find_slots) -/

/-- The local-to-UTC bound conversion of find_slots for one bound:
`strptime(f"\x7bdate\x7dT\x7bt\x7d", "%Y-%m-%dT%H:%M")` (ValueError on a
malformed date or time, uncaught), then `.replace(tzinfo=ZoneInfo(tz))`
(ZoneInfoNotFoundError on an unknown zone, uncaught), then
`.astimezone(UTC)`; the result is the UTC minute of day the code formats
with `strftime("%H:%M")`. -/
def convertLocalToUtcMinutes (tzdb : TZDB) (date t tz : String) :
    Except PyError Nat :=
  match parseDate date, parseHM t with
  | some _, some (h, m) =>
    match tzdb tz with
    | some off => .ok (localMinutesToUtc (h * 60 + m) off)
    | none => .error .zoneInfoNotFound
  | _, _ => .error .valueError

/-- The optional-bound wrapper: a falsy bound stays unset (`utc_start =
None`), a truthy one is converted and formatted as HH:MM. -/
def maybeConvertBound (tzdb : TZDB) (date : String) (t timezone : Option String) :
    Except PyError (Option String) :=
  if truthy t then
    (convertLocalToUtcMinutes tzdb date (t.getD "") (timezone.getD "")).map
      (fun u => some (formatHHMM u))
  else .ok none

/-- client/api.py PlaytomicClient.find_slots: the missing-timezone
validation, the two bound conversions, then get_club, get_available_slots
and filter_slots in sequence, logging the requests issued.  With
`log_slots` set and a nonempty result, _print_results evaluates
`ZoneInfo(timezone)` (after an `assert timezone is not None`), so an
unknown zone raises there. -/
def find_slots (net : Network) (tzdb : TZDB) (club_slug date : String)
    (court_type : Option FilterCourtType)
    (start_time end_time timezone : Option String) (duration : Option Int)
    (log_slots : Bool) : List Request × Except PyError (List Slot) :=
  if (truthy start_time || truthy end_time) && !(truthy timezone) then
    ([], .error (.validationError
      "timezone is required when start_time or end_time is provided" (some "timezone")))
  else
    match maybeConvertBound tzdb date start_time timezone with
    | .error e => ([], .error e)
    | .ok utc_start =>
      match maybeConvertBound tzdb date end_time timezone with
      | .error e => ([], .error e)
      | .ok utc_end =>
        match get_club net (some club_slug) none with
        | (reqs1, .error e) => (reqs1, .error e)
        | (reqs1, .ok club) =>
          match get_available_slots net club date utc_start utc_end with
          | (reqs2, .error e) => (reqs1 ++ reqs2, .error e)
          | (reqs2, .ok available) =>
            let filtered := filter_slots club available court_type duration
            if log_slots && !filtered.isEmpty then
              match timezone with
              | none => (reqs1 ++ reqs2, .error .assertionError)
              | some tz =>
                match tzdb tz with
                | none => (reqs1 ++ reqs2, .error .zoneInfoNotFound)
                | some _ => (reqs1 ++ reqs2, .ok filtered)
            else (reqs1 ++ reqs2, .ok filtered)

/-! ### Settings (config.py) and the structured tool path (tools.py) -/

/-- config.py Settings: the fields the tool path reads.  default_timezone
is "Europe/Berlin" unless the DEFAULT_TIMEZONE environment variable
overrides it. -/
structure Settings where
  default_timezone : String
deriving DecidableEq, Repr

/-- The Settings value with no environment overrides. -/
def defaultSettings : Settings := { default_timezone := "Europe/Berlin" }

/-- tools.py find_slots: `timezone or get_settings().default_timezone`
(Python `or`: None and `""` fall through to the default). -/
def effectiveTz (timezone : Option String) (settings : Settings) : String :=
  match timezone with
  | some t => if t ≠ "" then t else settings.default_timezone
  | none => settings.default_timezone

/-- One entry of the structured payload's `slots` list (tools.py
find_slots). -/
structure SlotView where
  local_time : String
  court : String
  duration : Int
  price : String
  booking_link : String
deriving DecidableEq, Repr

/-- The structured payload: the empty-result dict
`\x7b"count": 0, "slots": []\x7d` or the full dict with count, date and
slot summaries. -/
inductive ToolPayload where
  | empty
  | full (count : Nat) (date : String) (slots : List SlotView)
deriving DecidableEq, Repr

/-- The slot-summary comprehension body of tools.py find_slots, for a zone
`off` minutes ahead of UTC. -/
def renderSlotView (off : Int) (s : Slot) : SlotView :=
  { local_time := utcMinutesToLocalHHMM s.time.minutesOfDay off
    court := s.court_name
    duration := s.duration
    price := s.price
    booking_link := create_booking_link s.club_id s.court_id s.time.isoMillisZ s.duration }

/-- tools.py find_slots (the structured tool path): substitutes the
default timezone, calls the core with log_slots=True, returns the empty
payload on an empty result, otherwise builds the slot summaries; any
exception (including every PyError of the core and an unknown effective
zone) is caught and becomes None. -/
def toolFindSlots (net : Network) (tzdb : TZDB) (settings : Settings)
    (club_slug date : String) (court_type : Option FilterCourtType)
    (start_time end_time timezone : Option String) (duration : Option Int) :
    Option ToolPayload :=
  let etz := effectiveTz timezone settings
  match (find_slots net tzdb club_slug date court_type start_time end_time
      (some etz) duration true).2 with
  | .error _ => none
  | .ok slots =>
    if slots.isEmpty then some .empty
    else
      match tzdb etz with
      | none => none
      | some off => some (.full slots.length date (slots.map (renderSlotView off)))

/-! ### The spec-side URL shape and payload measurements -/

/-- Modelled from the spec's words for the claim about create_booking_link:
"the timestamp with every ':' replaced by '%3A'", written as a right fold
over the characters (to be compared with the source's `str.replace`). -/
def specColonEncode (s : String) : String :=
  ⟨s.data.foldr (fun c acc => (if c = ':' then ['%', '3', 'A'] else [c]) ++ acc) []⟩

/-- Number of slot entries in a structured payload (0 for the empty
payload and for the tool's None result). -/
def payloadSlotCount : Option ToolPayload → Nat
  | some (.full _ _ views) => views.length
  | _ => 0

/-! ### Concrete fixtures (the spec's "lemon-padel-club" scenario and a
few variations) used to instantiate the theorems -/

/-- The scenario venue: court-1 double, court-2 single. -/
def lemonCourts : List Court :=
  [⟨"court-1", "Court 1", .double⟩, ⟨"court-2", "Court 2", .single⟩]

/-- The scenario club. -/
def lemonClub : Club :=
  ⟨"lemon-padel-club", "Lemon Padel", "tid-1", "Europe/Berlin", lemonCourts⟩

/-- Scenario slot: court-1 at 10:00 UTC, 90 min. -/
def slot1 : Slot := ⟨"tid-1", "court-1", "Court 1", ⟨2026, 2, 15, 10, 0, 0⟩, 90, "25.00 EUR"⟩

/-- Scenario slot: court-1 at 14:00 UTC, 90 min. -/
def slot2 : Slot := ⟨"tid-1", "court-1", "Court 1", ⟨2026, 2, 15, 14, 0, 0⟩, 90, "25.00 EUR"⟩

/-- Scenario slot: court-2 at 10:00 UTC, 60 min. -/
def slot3 : Slot := ⟨"tid-1", "court-2", "Court 2", ⟨2026, 2, 15, 10, 0, 0⟩, 60, "18.00 EUR"⟩

/-- The scenario availability, in fetch order. -/
def lemonSlots : List Slot := [slot1, slot2, slot3]

/-- A directory record that parses to `lemonClub`. -/
def lemonRecord : ClubRecord :=
  { tenant_uid := some "lemon-padel-club", tenant_name := some "Lemon Padel",
    tenant_id := some "tid-1", address_timezone := some "Europe/Berlin",
    resources := [⟨some "court-1", some "Court 1", some "DOUBLE"⟩,
                  ⟨some "court-2", some "Court 2", some "single"⟩] }

/-- A zone table knowing only Europe/Berlin, at +60 minutes. -/
def witnessTzdb : TZDB := fun z => if z = "Europe/Berlin" then some 60 else none

/-- A network returning exactly one directory record and the scenario
availability (with one malformed slot record in the court-1 block). -/
def witnessNet : Network :=
  { tenants := .ok [lemonRecord],
    availability := .ok
      [⟨some "court-1", [⟨some "10:00:00", some 90, some "25.00 EUR"⟩,
                         ⟨none, some 90, some "25.00 EUR"⟩,
                         ⟨some "14:00:00", some 90, some "25.00 EUR"⟩]⟩,
       ⟨some "court-2", [⟨some "10:00:00", some 60, some "18.00 EUR"⟩]⟩] }

/-- A network whose directory query returns zero records. -/
def netZero : Network := { tenants := .ok [], availability := .ok [] }

/-- A network whose directory query returns two records for one slug. -/
def netTwo : Network := { tenants := .ok [lemonRecord, lemonRecord], availability := .ok [] }

/-- A one-court club record for the cap test. -/
def capRecord : ClubRecord :=
  { tenant_uid := some "cap-club", tenant_name := some "Cap Club",
    tenant_id := some "tid-9", address_timezone := some "Europe/Berlin",
    resources := [⟨some "c1", some "Court 1", some "double"⟩] }

/-- Eleven well-formed slot records on one court (hours 08:00 to 18:00). -/
def capSlotRecords : List SlotRecord :=
  (List.range 11).map (fun i => ⟨some (⟨natToTwoDigits (8 + i) ++ ":00:00".data⟩), some 90, some "25.00 EUR"⟩)

/-- The network for the cap test: one club, eleven matching slots. -/
def capNet : Network :=
  { tenants := .ok [capRecord],
    availability := .ok [⟨some "c1", capSlotRecords⟩] }

/-! ## Shared lemmas -/

/-- `str.replace(':', '%3A')` replaces every colon: the source's map-and-
flatten form agrees with the spec's fold form. -/
theorem pyReplaceColon_eq_spec (s : String) : pyReplaceColon s = specColonEncode s := by
  unfold pyReplaceColon specColonEncode
  refine congrArg String.mk ?_
  induction s.data with
  | nil => rfl
  | cons c cs ih =>
    by_cases hc : c = ':'
    · subst hc
      simp only [List.map_cons, List.flatten_cons, List.foldr_cons, ih, if_pos rfl]
    · simp only [List.map_cons, List.flatten_cons, List.foldr_cons, ih, if_neg hc]

/-- Reading back a two-digit strftime field gives the value. -/
theorem digitsToNat_natToTwoDigits (n : Nat) (h : n < 100) :
    digitsToNat (natToTwoDigits n) = n := by
  revert n h; decide

/-- A two-digit strftime field is all digits and contains no colon. -/
theorem natToTwoDigits_wf (n : Nat) (h : n < 100) :
    (natToTwoDigits n).all isDigitChar = true ∧ ':' ∉ natToTwoDigits n := by
  revert n h; decide

/-- Splitting at the separator recovers a separator-free prefix. -/
theorem splitChar_append (sep : Char) (l₁ l₂ : List Char) (h : sep ∉ l₁) :
    splitChar sep (l₁ ++ sep :: l₂) = l₁ :: splitChar sep l₂ := by
  induction l₁ with
  | nil => simp [splitChar]
  | cons c cs ih =>
    simp only [List.mem_cons, not_or] at h
    have hc : ¬ c = sep := fun hc => h.1 hc.symm
    simp only [List.cons_append, splitChar, if_neg hc]
    rw [List.append_eq, ih h.2]

/-- Splitting a separator-free list leaves it whole. -/
theorem splitChar_no_sep (sep : Char) (l : List Char) (h : sep ∉ l) :
    splitChar sep l = [l] := by
  induction l with
  | nil => rfl
  | cons c cs ih =>
    simp only [List.mem_cons, not_or] at h
    have hc : ¬ c = sep := fun hc => h.1 hc.symm
    simp only [splitChar, if_neg hc, ih h.2]

/-- A strptime 1-2 digit field parses a two-digit strftime field back to
its value. -/
theorem parseNatField_twoDigits (n : Nat) (h : n < 100) :
    parseNatField (natToTwoDigits n) 1 2 = some n := by
  have hwf := natToTwoDigits_wf n h
  unfold parseNatField
  rw [if_pos ⟨by simp [natToTwoDigits], by simp [natToTwoDigits], hwf.1⟩,
    digitsToNat_natToTwoDigits n h]

/-- strptime `%H:%M` inverts the strftime `%H:%M` formatting of a minute
of day. -/
theorem parseHM_formatHHMM (t : Nat) (ht : t < 1440) :
    parseHM (formatHHMM t) = some (t / 60, t % 60) := by
  have hdiv : t / 60 < 100 := by omega
  have hmod : t % 60 < 100 := by omega
  have hsplit : splitChar ':' (formatHHMM t).data
      = [natToTwoDigits (t / 60), natToTwoDigits (t % 60)] := by
    rw [show (formatHHMM t).data
        = natToTwoDigits (t / 60) ++ ':' :: natToTwoDigits (t % 60) from rfl]
    rw [splitChar_append ':' _ _ (natToTwoDigits_wf _ hdiv).2,
      splitChar_no_sep ':' _ (natToTwoDigits_wf _ hmod).2]
  unfold parseHM
  simp only [hsplit, parseNatField_twoDigits _ hdiv, parseNatField_twoDigits _ hmod]
  rw [if_pos ⟨by omega, by omega⟩]

/-- Converting a minute of day to UTC with a fixed offset and back is the
identity. -/
theorem localMinutesToUtc_roundtrip (t : Nat) (off : Int) (ht : t < 1440) :
    (((localMinutesToUtc t off : Int) + off).emod 1440).toNat = t := by
  unfold localMinutesToUtc
  have h0 : 0 ≤ ((t : Int) - off).emod 1440 := Int.emod_nonneg _ (by norm_num)
  rw [Int.toNat_of_nonneg h0]
  show ((((t : Int) - off) % 1440 + off) % 1440).toNat = t
  rw [Int.emod_add_emod, sub_add_cancel,
    Int.emod_eq_of_lt (by exact_mod_cast Nat.zero_le t) (by exact_mod_cast ht)]
  omega

/-- The target court-id set is always a subset of the club's court ids. -/
theorem targetCourtIds_subset (club : Club) (ct : Option FilterCourtType) :
    ∀ x ∈ targetCourtIds club ct, x ∈ club.courts.map Court.id := by
  intro x hx
  rcases ct with _ | ct
  · simpa [targetCourtIds] using hx
  · cases ct <;>
    · simp only [targetCourtIds, Club.get_court_by_type, List.mem_map,
        List.mem_filter] at hx
      obtain ⟨c, ⟨hc, _⟩, rfl⟩ := hx
      exact List.mem_map.mpr ⟨c, hc, rfl⟩

/-- With no duplicate court ids, no court id is both a single-court id and
a double-court id. -/
theorem targetCourtIds_disjoint (club : Club)
    (hids : (club.courts.map Court.id).Nodup) (x : String)
    (h1 : x ∈ targetCourtIds club (some .SINGLE))
    (h2 : x ∈ targetCourtIds club (some .DOUBLE)) : False := by
  simp only [targetCourtIds, Club.get_court_by_type, List.mem_map,
    List.mem_filter, beq_iff_eq] at h1 h2
  obtain ⟨c1, ⟨hc1, ht1⟩, hid1⟩ := h1
  obtain ⟨c2, ⟨hc2, ht2⟩, hid2⟩ := h2
  have : c1 = c2 :=
    List.inj_on_of_nodup_map hids hc1 hc2 (by rw [hid1, hid2])
  rw [this, ht2] at ht1
  cases ht1

/-- Every known court id is a single-court id or a double-court id. -/
theorem targetCourtIds_split (club : Club) (x : String)
    (hx : x ∈ club.courts.map Court.id) :
    x ∈ targetCourtIds club (some .SINGLE) ∨ x ∈ targetCourtIds club (some .DOUBLE) := by
  obtain ⟨c, hc, rfl⟩ := List.mem_map.mp hx
  cases hct : c.type
  · exact Or.inl (by
      simp only [targetCourtIds, Club.get_court_by_type, List.mem_map, List.mem_filter]
      exact ⟨c, ⟨hc, by rw [hct]; rfl⟩, rfl⟩)
  · exact Or.inr (by
      simp only [targetCourtIds, Club.get_court_by_type, List.mem_map, List.mem_filter]
      exact ⟨c, ⟨hc, by rw [hct]; rfl⟩, rfl⟩)

/-- Three pointwise mutually-exclusive, jointly-exhaustive boolean
predicates split a list's length. -/
theorem length_filter_three {α : Type} (p1 p2 p3 : α → Bool) (l : List α)
    (h : ∀ a ∈ l, (p1 a = true ∧ p2 a = false ∧ p3 a = false)
       ∨ (p1 a = false ∧ p2 a = true ∧ p3 a = false)
       ∨ (p1 a = false ∧ p2 a = false ∧ p3 a = true)) :
    (l.filter p1).length + (l.filter p2).length + (l.filter p3).length = l.length := by
  induction l with
  | nil => rfl
  | cons a rest ih =>
    have hrest := ih (fun b hb => h b (by simp [hb]))
    rcases h a (by simp) with ⟨h1, h2, h3⟩ | ⟨h1, h2, h3⟩ | ⟨h1, h2, h3⟩ <;>
      simp [List.filter_cons, h1, h2, h3] <;> omega

/-- Membership in a filter_slots result. -/
theorem mem_filter_slots (club : Club) (A : List Slot)
    (ct : Option FilterCourtType) (dur : Option Int) (s : Slot) :
    s ∈ filter_slots club A ct dur ↔
      s ∈ A ∧ s.court_id ∈ targetCourtIds club ct ∧ durationOk dur s = true := by
  simp [filter_slots, List.mem_filter, and_assoc]

/-! ## Claim theorems -/

/-- C1: filter_slots keeps exactly the slots whose court_id is in the
requested type's id set (all ids when the type filter is omitted) and
which match the duration filter, as an order-preserving subsequence of
the input; and, for a club without duplicate court ids, the SINGLE
result, the DOUBLE result and the unknown-court slots are disjoint and
their sizes partition the input. -/
theorem filter_slots_spec (club : Club) (A : List Slot)
    (ct : Option FilterCourtType) (dur : Option Int)
    (hids : (club.courts.map Court.id).Nodup) :
    ((filter_slots club A ct dur).Sublist A
      ∧ (∀ s, s ∈ filter_slots club A ct dur ↔
          s ∈ A ∧ s.court_id ∈ targetCourtIds club ct ∧ durationOk dur s = true)
      ∧ (∀ d, dur = some d → ∀ s ∈ filter_slots club A ct dur, s.duration = d))
    ∧ ((∀ s, ¬(s ∈ filter_slots club A (some .SINGLE) none
            ∧ s ∈ filter_slots club A (some .DOUBLE) none))
      ∧ (∀ s, s ∈ filter_slots club A (some .SINGLE) none
            ∨ s ∈ filter_slots club A (some .DOUBLE) none →
          s.court_id ∈ club.courts.map Court.id)
      ∧ (filter_slots club A (some .SINGLE) none).length
          + (filter_slots club A (some .DOUBLE) none).length
          + (A.filter (fun s => decide (s.court_id ∉ club.courts.map Court.id))).length
          = A.length) := by
  refine ⟨⟨?_, mem_filter_slots club A ct dur, ?_⟩, ?_, ?_, ?_⟩
  · exact List.filter_sublist A
  · rintro d rfl s hs
    have h := ((mem_filter_slots club A ct (some d) s).mp hs).2.2
    simpa [durationOk] using h
  · rintro s ⟨h1, h2⟩
    exact targetCourtIds_disjoint club hids s.court_id
      ((mem_filter_slots club A (some .SINGLE) none s).mp h1).2.1
      ((mem_filter_slots club A (some .DOUBLE) none s).mp h2).2.1
  · rintro s (h | h)
    · exact targetCourtIds_subset club (some .SINGLE) s.court_id
        ((mem_filter_slots club A (some .SINGLE) none s).mp h).2.1
    · exact targetCourtIds_subset club (some .DOUBLE) s.court_id
        ((mem_filter_slots club A (some .DOUBLE) none s).mp h).2.1
  · have e1 : filter_slots club A (some .SINGLE) none =
        A.filter (fun s => decide (s.court_id ∈ targetCourtIds club (some .SINGLE))) := by
      simp [filter_slots, durationOk]
    have e2 : filter_slots club A (some .DOUBLE) none =
        A.filter (fun s => decide (s.court_id ∈ targetCourtIds club (some .DOUBLE))) := by
      simp [filter_slots, durationOk]
    rw [e1, e2]
    refine length_filter_three _ _ _ A ?_
    intro s hs
    by_cases hall : s.court_id ∈ club.courts.map Court.id
    · rcases targetCourtIds_split club s.court_id hall with h | h
      · exact Or.inl ⟨decide_eq_true h,
          decide_eq_false (fun h2 => targetCourtIds_disjoint club hids s.court_id h h2),
          decide_eq_false (not_not_intro hall)⟩
      · exact Or.inr (Or.inl ⟨
          decide_eq_false (fun h1 => targetCourtIds_disjoint club hids s.court_id h1 h),
          decide_eq_true h,
          decide_eq_false (not_not_intro hall)⟩)
    · exact Or.inr (Or.inr ⟨
        decide_eq_false (fun hmem => hall (targetCourtIds_subset club _ s.court_id hmem)),
        decide_eq_false (fun hmem => hall (targetCourtIds_subset club _ s.court_id hmem)),
        decide_eq_true hall⟩)

/-- C1 witness: the scenario club and availability (type filter DOUBLE,
duration filter 90). -/
theorem filter_slots_spec_witness :
    ((filter_slots lemonClub lemonSlots (some .DOUBLE) (some 90)).Sublist lemonSlots
      ∧ (∀ s, s ∈ filter_slots lemonClub lemonSlots (some .DOUBLE) (some 90) ↔
          s ∈ lemonSlots ∧ s.court_id ∈ targetCourtIds lemonClub (some .DOUBLE)
            ∧ durationOk (some 90) s = true)
      ∧ (∀ d, (some 90 : Option Int) = some d →
          ∀ s ∈ filter_slots lemonClub lemonSlots (some .DOUBLE) (some 90), s.duration = d))
    ∧ ((∀ s, ¬(s ∈ filter_slots lemonClub lemonSlots (some .SINGLE) none
            ∧ s ∈ filter_slots lemonClub lemonSlots (some .DOUBLE) none))
      ∧ (∀ s, s ∈ filter_slots lemonClub lemonSlots (some .SINGLE) none
            ∨ s ∈ filter_slots lemonClub lemonSlots (some .DOUBLE) none →
          s.court_id ∈ lemonClub.courts.map Court.id)
      ∧ (filter_slots lemonClub lemonSlots (some .SINGLE) none).length
          + (filter_slots lemonClub lemonSlots (some .DOUBLE) none).length
          + (lemonSlots.filter
              (fun s => decide (s.court_id ∉ lemonClub.courts.map Court.id))).length
          = lemonSlots.length) :=
  filter_slots_spec lemonClub lemonSlots (some .DOUBLE) (some 90) (by decide)

/-- C8: create_booking_link is a pure deterministic function (two calls on
identical inputs give the same string) and its result is exactly the
claimed URL with every colon of the timestamp replaced by `%3A`. -/
theorem create_booking_link_spec (club_id court_id time : String) (dur : Int) :
    create_booking_link club_id court_id time dur =
      create_booking_link club_id court_id time dur
    ∧ create_booking_link club_id court_id time dur =
        "https://app.playtomic.com/payments?type=CUSTOMER_MATCH&tenant_id=" ++ club_id ++
          "&resource_id=" ++ court_id ++ "&start=" ++ specColonEncode time ++
          "&duration=" ++ toString dur := by
  refine ⟨rfl, ?_⟩
  unfold create_booking_link
  rw [pyReplaceColon_eq_spec]

/-- C2: with a start or end bound provided and timezone None, find_slots
fails with the field-tagged ValidationError and issues no network request
(the request log of the run is empty). -/
theorem find_slots_missing_timezone (net : Network) (tzdb : TZDB)
    (club_slug date : String) (ct : Option FilterCourtType)
    (st et : Option String) (dur : Option Int) (ls : Bool)
    (hwindow : truthy st = true ∨ truthy et = true) :
    find_slots net tzdb club_slug date ct st et none dur ls =
      ([], .error (.validationError
        "timezone is required when start_time or end_time is provided" (some "timezone"))) := by
  unfold find_slots
  have hcond : ((truthy st || truthy et) && !(truthy none)) = true := by
    have hor : (truthy st || truthy et) = true := by
      rcases hwindow with h | h <;> rw [h] <;> simp
    rw [hor]; rfl
  rw [if_pos hcond]

/-- C2 witness: a concrete run with start_time "08:00" and no timezone. -/
theorem find_slots_missing_timezone_witness :
    find_slots witnessNet witnessTzdb "lemon-padel-club" "2026-02-15" none
        (some "08:00") none none none false =
      ([], .error (.validationError
        "timezone is required when start_time or end_time is provided" (some "timezone"))) :=
  find_slots_missing_timezone witnessNet witnessTzdb "lemon-padel-club" "2026-02-15" none
    (some "08:00") none none false (Or.inl (by decide))

/-- C4 counterexample: get_club called with BOTH slug and name does not
fail with ValidationError — it issues the directory query (using the
slug) and succeeds, refuting "neither given, or both given, fails with
ValidationError before any request is issued". -/
theorem get_club_both_selectors_counterexample :
    (get_club witnessNet (some "lemon-padel-club") (some "Lemon Padel")).2 =
      .ok lemonClub
    ∧ (get_club witnessNet (some "lemon-padel-club") (some "Lemon Padel")).1 =
        [Request.tenants [("tenant_uid", "lemon-padel-club")]] := by
  constructor <;> decide

/-- C4 (amended): get_club fails with ValidationError, before any request
is issued, exactly in the missing-selector case: when neither slug nor
name is truthy.  (When both are given the call proceeds, querying by
slug.) -/
theorem get_club_no_selector (net : Network) (slug name : Option String)
    (h1 : truthy slug = false) (h2 : truthy name = false) :
    get_club net slug name =
      ([], .error (.validationError "Either slug or name must be provided" none)) := by
  unfold get_club
  rw [if_pos (by rw [h1, h2]; rfl)]

/-- C4 witness: a concrete call with neither selector. -/
theorem get_club_no_selector_witness :
    get_club witnessNet none none =
      ([], .error (.validationError "Either slug or name must be provided" none)) :=
  get_club_no_selector witnessNet none none (by decide) (by decide)

/-- C3: with a selector given, a zero-record directory response raises
ClubNotFoundError carrying the selector and its type; two or more records
raise MultipleClubsFoundError carrying the selector and the record count
(count 2 for two records); only an exactly-one-record response is parsed
into a club. -/
theorem get_club_record_count (net : Network) (slug name : Option String)
    (hsel : truthy slug = true ∨ truthy name = true) :
    ∀ data, net.tenants = .ok data →
      (data = [] →
        get_club net slug name =
          ([Request.tenants (tenantsParams slug name)],
           .error (.clubNotFound (if truthy slug then slug.getD "" else name.getD "")
                                 (if truthy slug then "slug" else "name"))))
      ∧ (∀ r1 r2 rest, data = r1 :: r2 :: rest →
          get_club net slug name =
            ([Request.tenants (tenantsParams slug name)],
             .error (.multipleClubsFound
               (if truthy slug then slug.getD "" else name.getD "") data.length)))
      ∧ (∀ r1 r2, data = [r1, r2] →
          get_club net slug name =
            ([Request.tenants (tenantsParams slug name)],
             .error (.multipleClubsFound
               (if truthy slug then slug.getD "" else name.getD "") 2)))
      ∧ (∀ r, data = [r] →
          get_club net slug name =
            ([Request.tenants (tenantsParams slug name)], parseClubRecord slug r)) := by
  intro data hdata
  have hguard : (!(truthy slug || truthy name)) ≠ true := by
    rcases hsel with h | h <;> simp [h]
  unfold get_club
  rw [if_neg hguard, hdata]
  refine ⟨?_, ?_, ?_, ?_⟩
  · rintro rfl; rfl
  · rintro r1 r2 rest rfl; rfl
  · rintro r1 r2 rfl; rfl
  · rintro r rfl; rfl

/-- C3 witness: concrete zero-, two- and one-record responses for slug
"lemon-padel-club". -/
theorem get_club_record_count_witness :
    (get_club netZero (some "lemon-padel-club") none =
      ([Request.tenants [("tenant_uid", "lemon-padel-club")]],
       .error (.clubNotFound "lemon-padel-club" "slug")))
    ∧ (get_club netTwo (some "lemon-padel-club") none =
        ([Request.tenants [("tenant_uid", "lemon-padel-club")]],
         .error (.multipleClubsFound "lemon-padel-club" 2)))
    ∧ (get_club witnessNet (some "lemon-padel-club") none =
        ([Request.tenants [("tenant_uid", "lemon-padel-club")]],
         parseClubRecord (some "lemon-padel-club") lemonRecord)) := by
  refine ⟨?_, ?_, ?_⟩
  · have h := (get_club_record_count netZero (some "lemon-padel-club") none
      (Or.inl (by decide)) [] rfl).1 rfl
    simpa using h
  · have h := ((get_club_record_count netTwo (some "lemon-padel-club") none
      (Or.inl (by decide)) [lemonRecord, lemonRecord] rfl).2.2.1) lemonRecord lemonRecord rfl
    simpa using h
  · have h := ((get_club_record_count witnessNet (some "lemon-padel-club") none
      (Or.inl (by decide)) [lemonRecord] rfl).2.2.2) lemonRecord rfl
    simpa using h

/-- C5: a slot record whose start_time is missing or unparseable, or whose
duration or price is missing, is skipped without affecting the rest: the
batch result is the same as if the bad record were absent, and the fetch
still succeeds (returns `.ok`, never an error). -/
theorem get_available_slots_skips_bad (club : Club) (date : String)
    (st et : Option String) (blocksL blocksR : List ResourceAvailability)
    (rid : Option String) (xs ys : List SlotRecord) (bad : SlotRecord)
    (hbad : bad.start_time = none ∨
            (∀ t, bad.start_time = some t → parseDateTimeSec date t = none) ∨
            bad.duration = none ∨ bad.price = none) :
    parseAvailability club date (blocksL ++ ⟨rid, xs ++ bad :: ys⟩ :: blocksR) =
      parseAvailability club date (blocksL ++ ⟨rid, xs ++ ys⟩ :: blocksR)
    ∧ ∀ net : Network,
        net.availability = .ok (blocksL ++ ⟨rid, xs ++ bad :: ys⟩ :: blocksR) →
        (get_available_slots net club date st et).2 =
          .ok (parseAvailability club date (blocksL ++ ⟨rid, xs ++ ys⟩ :: blocksR)) := by
  have hnone : ∀ cn, parseSlotRecord club.club_id rid cn date bad = none := by
    intro cn
    rcases hst : bad.start_time with _ | t
    · simp [parseSlotRecord, hst]
    · rcases hpt : parseDateTimeSec date t with _ | dt
      · simp [parseSlotRecord, hst, hpt]
      · rcases hbad with h | h | h | h
        · rw [hst] at h; cases h
        · rw [h t hst] at hpt; cases hpt
        · cases rid <;> simp [parseSlotRecord, hst, hpt, h]
        · cases rid <;> rcases hd : bad.duration with _ | d <;>
            simp [parseSlotRecord, hst, hpt, h, hd]
  have hmain : parseAvailability club date (blocksL ++ ⟨rid, xs ++ bad :: ys⟩ :: blocksR) =
      parseAvailability club date (blocksL ++ ⟨rid, xs ++ ys⟩ :: blocksR) := by
    unfold parseAvailability
    rw [List.flatMap_append, List.flatMap_append, List.flatMap_cons, List.flatMap_cons]
    simp only [List.filterMap_append, List.filterMap_cons, hnone]
  refine ⟨hmain, ?_⟩
  intro net hnet
  unfold get_available_slots
  rw [hnet, ← hmain]

/-- C5 witness: the court-1 block of the witness network has a record with
a missing start_time between two good ones; the result equals the batch
without it, and the fetch succeeds. -/
theorem get_available_slots_skips_bad_witness :
    parseAvailability lemonClub "2026-02-15"
        [⟨some "court-1", [⟨some "10:00:00", some 90, some "25.00 EUR"⟩,
                           ⟨none, some 90, some "25.00 EUR"⟩,
                           ⟨some "14:00:00", some 90, some "25.00 EUR"⟩]⟩,
         ⟨some "court-2", [⟨some "10:00:00", some 60, some "18.00 EUR"⟩]⟩] =
      parseAvailability lemonClub "2026-02-15"
        [⟨some "court-1", [⟨some "10:00:00", some 90, some "25.00 EUR"⟩,
                           ⟨some "14:00:00", some 90, some "25.00 EUR"⟩]⟩,
         ⟨some "court-2", [⟨some "10:00:00", some 60, some "18.00 EUR"⟩]⟩]
    ∧ ∀ net : Network,
        net.availability = .ok
          [⟨some "court-1", [⟨some "10:00:00", some 90, some "25.00 EUR"⟩,
                             ⟨none, some 90, some "25.00 EUR"⟩,
                             ⟨some "14:00:00", some 90, some "25.00 EUR"⟩]⟩,
           ⟨some "court-2", [⟨some "10:00:00", some 60, some "18.00 EUR"⟩]⟩] →
        (get_available_slots net lemonClub "2026-02-15" none none).2 =
          .ok (parseAvailability lemonClub "2026-02-15"
            [⟨some "court-1", [⟨some "10:00:00", some 90, some "25.00 EUR"⟩,
                               ⟨some "14:00:00", some 90, some "25.00 EUR"⟩]⟩,
             ⟨some "court-2", [⟨some "10:00:00", some 60, some "18.00 EUR"⟩]⟩]) :=
  get_available_slots_skips_bad lemonClub "2026-02-15" none none
    [] [⟨some "court-2", [⟨some "10:00:00", some 60, some "18.00 EUR"⟩]⟩]
    (some "court-1")
    [⟨some "10:00:00", some 90, some "25.00 EUR"⟩]
    [⟨some "14:00:00", some 90, some "25.00 EUR"⟩]
    ⟨none, some 90, some "25.00 EUR"⟩
    (Or.inl rfl)

/-- C6: an availability response with zero slot rows yields the empty slot
list as a success (`.ok []`, never an error), and whenever the core
returns the empty list the structured tool path renders the canonical
empty payload (count 0, empty slots list). -/
theorem empty_availability_success (net : Network) (tzdb : TZDB)
    (settings : Settings) (club : Club) (club_slug date : String)
    (ct : Option FilterCourtType) (st et tz : Option String) (dur : Option Int) :
    (∀ data : List ResourceAvailability, (∀ ra ∈ data, ra.slots = []) →
      parseAvailability club date data = []
      ∧ (net.availability = .ok data →
          (get_available_slots net club date st et).2 = .ok ([] : List Slot)))
    ∧ ((find_slots net tzdb club_slug date ct st et
          (some (effectiveTz tz settings)) dur true).2 = .ok ([] : List Slot) →
        toolFindSlots net tzdb settings club_slug date ct st et tz dur =
          some ToolPayload.empty) := by
  constructor
  · intro data hdata
    have hempty : parseAvailability club date data = [] := by
      unfold parseAvailability
      induction data with
      | nil => rfl
      | cons ra rest ih =>
        rw [List.flatMap_cons, hdata ra (by simp), ih (fun r hr => hdata r (by simp [hr]))]
        rfl
    refine ⟨hempty, ?_⟩
    intro hnet
    simp only [get_available_slots, hnet, hempty]
  · intro hcore
    simp only [toolFindSlots, hcore, List.isEmpty_nil, if_true]

/-- C6 witness: the zero-record availability response of netZero, and the
tool path on a query no slot matches. -/
theorem empty_availability_success_witness :
    parseAvailability lemonClub "2026-02-15" [] = []
    ∧ (get_available_slots netZero lemonClub "2026-02-15" none none).2 = .ok ([] : List Slot)
    ∧ toolFindSlots witnessNet witnessTzdb defaultSettings "lemon-padel-club" "2026-02-15"
        none none none none (some 999) = some ToolPayload.empty := by
  have h := empty_availability_success netZero witnessTzdb defaultSettings lemonClub
    "lemon-padel-club" "2026-02-15" none none none none (some 999)
  have h2 := empty_availability_success witnessNet witnessTzdb defaultSettings lemonClub
    "lemon-padel-club" "2026-02-15" none none none none (some 999)
  exact ⟨(h.1 [] (by simp)).1,
    (h.1 [] (by simp)).2 rfl,
    h2.2 (by decide)⟩

/-- C7: for a date that parses and a zone with a fixed offset at the
relevant instant (no DST transition), converting a wall-clock HH:MM to
UTC the way find_slots does and converting the resulting UTC minute back
to the zone with the tool's rendering yields the original HH:MM. -/
theorem timezone_roundtrip (tzdb : TZDB) (date tzName : String) (off : Int)
    (h m : Nat) (hdate : (parseDate date).isSome = true) (hh : h < 24) (hm : m < 60)
    (hzone : tzdb tzName = some off) :
    ∃ u, convertLocalToUtcMinutes tzdb date (formatHHMM (h * 60 + m)) tzName = .ok u
      ∧ utcMinutesToLocalHHMM u off = formatHHMM (h * 60 + m) := by
  have ht : h * 60 + m < 1440 := by omega
  obtain ⟨dval, hd⟩ := Option.isSome_iff_exists.mp hdate
  refine ⟨localMinutesToUtc (h * 60 + m) off, ?_, ?_⟩
  · simp only [convertLocalToUtcMinutes, hd, parseHM_formatHHMM _ ht, hzone]
    have harith : (h * 60 + m) / 60 * 60 + (h * 60 + m) % 60 = h * 60 + m := by omega
    rw [harith]
  · unfold utcMinutesToLocalHHMM
    rw [localMinutesToUtc_roundtrip _ _ ht]

/-- C7 witness: 08:30 in a +60-minute zone on 2026-02-15. -/
theorem timezone_roundtrip_witness :
    ∃ u, convertLocalToUtcMinutes witnessTzdb "2026-02-15"
        (formatHHMM (8 * 60 + 30)) "Europe/Berlin" = .ok u
      ∧ utcMinutesToLocalHHMM u 60 = formatHHMM (8 * 60 + 30) :=
  timezone_roundtrip witnessTzdb "2026-02-15" "Europe/Berlin" 60 8 30
    (by decide) (by decide) (by decide) (by decide)

/-- C9 (failing evaluation): on a network with eleven matching slots the
structured tool path returns a payload with eleven slot entries — the
code performs no truncation, although its own comment announces a limit
of ten slots. -/
theorem structured_path_uncapped :
    payloadSlotCount (toolFindSlots capNet witnessTzdb defaultSettings "cap-club"
      "2026-03-01" none none none none none) = 11 := by
  decide

/-- The court-parsing loop never raises the caller-input ValidationError
(its failures are the parse-class APIError or pydantic's error). -/
theorem parseResources_no_validation (rs : List ResourceRecord) (msg : String)
    (f : Option String) : parseResources rs ≠ .error (.validationError msg f) := by
  induction rs with
  | nil => intro h; cases h
  | cons r rest ih =>
    intro h
    simp only [parseResources] at h
    split at h
    · rename_i rid nm sz heq
      split at h
      · rcases hrec : parseResources rest with e | cs <;> rw [hrec] at h
        · simp only [Except.map] at h
          cases h
          exact ih (by rw [hrec])
        · simp only [Except.map] at h
          cases h
      · cases h
    · cases h

/-- The record-parse step of get_club never raises the caller-input
ValidationError. -/
theorem parseClubRecord_no_validation (slug : Option String) (cr : ClubRecord)
    (msg : String) (f : Option String) :
    parseClubRecord slug cr ≠ .error (.validationError msg f) := by
  intro h
  simp only [parseClubRecord] at h
  split at h
  · rename_i nm cid tz heq
    rcases hrec : parseResources cr.resources with e | cs <;> rw [hrec] at h
    · simp only [Except.map] at h
      cases h
      exact parseResources_no_validation cr.resources msg f (by rw [hrec])
    · simp only [Except.map] at h
      cases h
  · cases h

/-- Any ValidationError raised by get_club has no field tag (it is the
missing-selector error, never the timezone one). -/
theorem get_club_validation_field (net : Network) (slug name : Option String)
    (msg : String) (f : Option String)
    (h : (get_club net slug name).2 = .error (.validationError msg f)) : f = none := by
  unfold get_club at h
  split at h
  · cases h; rfl
  · rcases hten : net.tenants with status | data <;> rw [hten] at h
    · simp at h
    · rcases data with _ | ⟨r, _ | ⟨r2, rest⟩⟩
      · simp at h
      · simp only at h
        exact absurd h (parseClubRecord_no_validation slug r msg f)
      · simp at h

/-- The bound conversion of find_slots never raises a ValidationError
(its failures are ValueError or ZoneInfoNotFoundError). -/
theorem maybeConvertBound_no_validation (tzdb : TZDB) (date : String)
    (t timezone : Option String) (msg : String) (f : Option String) :
    maybeConvertBound tzdb date t timezone ≠ .error (.validationError msg f) := by
  intro h
  simp only [maybeConvertBound] at h
  split at h
  · rcases hc : convertLocalToUtcMinutes tzdb date (t.getD "") (timezone.getD "")
      with e | u <;> rw [hc] at h
    · simp only [Except.map] at h
      cases h
      simp only [convertLocalToUtcMinutes] at hc
      split at hc
      · split at hc <;> cases hc
      · cases hc
    · simp only [Except.map] at h
      cases h
  · cases h

/-- The availability fetch never raises a ValidationError (its only error
is the transport APIError). -/
theorem get_available_slots_no_validation (net : Network) (club : Club)
    (date : String) (st et : Option String) (msg : String) (f : Option String) :
    (get_available_slots net club date st et).2 ≠ .error (.validationError msg f) := by
  intro h
  simp only [get_available_slots] at h
  split at h <;> cases h

/-- C10: when the tool's timezone argument is omitted and the configured
default timezone is nonempty, the tool substitutes the default timezone,
and the core call it makes can never fail with the field-tagged
missing-timezone ValidationError — that branch is unreachable through the
tool interface and the window is interpreted in the default zone. -/
theorem tool_uses_default_timezone (net : Network) (tzdb : TZDB) (settings : Settings)
    (club_slug date : String) (ct : Option FilterCourtType)
    (st et : Option String) (dur : Option Int)
    (hdef : settings.default_timezone ≠ "") :
    effectiveTz none settings = settings.default_timezone
    ∧ ∀ msg, (find_slots net tzdb club_slug date ct st et
        (some (effectiveTz none settings)) dur true).2
        ≠ .error (.validationError msg (some "timezone")) := by
  refine ⟨rfl, ?_⟩
  intro msg h
  have htz : truthy (some (effectiveTz none settings)) = true := by
    simp [truthy, effectiveTz, hdef]
  have hcond : ((truthy st || truthy et) && !(truthy (some (effectiveTz none settings))))
      ≠ true := by
    rw [htz]; simp
  unfold find_slots at h
  rw [if_neg hcond] at h
  rcases h1 : maybeConvertBound tzdb date st (some (effectiveTz none settings))
    with e1 | us
  · rw [h1] at h
    simp at h
    subst h
    exact maybeConvertBound_no_validation tzdb date st _ msg (some "timezone") h1
  · simp only [h1] at h
    rcases h2 : maybeConvertBound tzdb date et (some (effectiveTz none settings))
      with e2 | ue
    · rw [h2] at h
      simp at h
      subst h
      exact maybeConvertBound_no_validation tzdb date et _ msg (some "timezone") h2
    · simp only [h2] at h
      rcases h3 : get_club net (some club_slug) none with ⟨reqs1, e3 | club⟩
      · rw [h3] at h
        simp at h
        subst h
        exact Option.noConfusion (get_club_validation_field net (some club_slug) none
          msg (some "timezone") (by rw [h3]))
      · simp only [h3] at h
        rcases h4 : get_available_slots net club date us ue with ⟨reqs2, e4 | avail⟩
        · rw [h4] at h
          simp at h
          subst h
          exact get_available_slots_no_validation net club date us ue msg
            (some "timezone") (by rw [h4])
        · simp only [h4] at h
          rcases h5 : tzdb (effectiveTz none settings) with _ | off <;>
            by_cases hempty : (filter_slots club avail ct dur).isEmpty <;>
            simp [h5, hempty] at h

/-- C10 witness: omitted timezone with the stock settings and a start
bound. -/
theorem tool_uses_default_timezone_witness :
    effectiveTz none defaultSettings = defaultSettings.default_timezone
    ∧ ∀ msg, (find_slots witnessNet witnessTzdb "lemon-padel-club" "2026-02-15" none
        (some "08:00") none (some (effectiveTz none defaultSettings)) none true).2
        ≠ .error (.validationError msg (some "timezone")) :=
  tool_uses_default_timezone witnessNet witnessTzdb defaultSettings "lemon-padel-club"
    "2026-02-15" none (some "08:00") none none (by decide)

end Playtomic
